import Mathlib

/-
Shallow embedding of the LUNA d21 UART driver
(src/firmware/src/boards/luna_d21/uart.c).

The driver touches one SERCOM USART register block, two pin-mux entries
(PA00, PA01), one NVIC line and two clock gates.  We model that state
explicitly and translate each C function into a Lean function on it.
Machine integers are Nat with explicit reduction modulo 2^32 (the C
target's unsigned long / uint32_t width) where overflow can matter, and
modulo 2^16 / 2^8 at the 16-bit register / uint8_t boundaries.

The SERCOM register layout itself comes from Atmel headers that are not
part of this repository, so registers are modelled at the named-field
level (one Lean field per named bit-field the driver touches) rather
than as raw words.  Busy-wait polling loops in uart_init only read the
SYNCBUSY bits; in the simulated register model, where every polled flag
eventually clears, they terminate without changing any state, so they
appear as read-only (identity) steps in the trace.

The four baud-divisor constants are written in the source as shifts of
UINT32_C(1) — a 32-bit operand — by 32, 42, 52 and 62.  A shift of a
32-bit value by its width or more moves every bit out of the register:
compilers fold these constant shifts to 0 (with a warning) and the ARM
shifter also produces 0 for shift counts of 32 and above, so the
embedding gives them 32-bit shift semantics (`shl32`), not the
mathematical powers of two that the surrounding comment and the spec
intend. -/

/-- Left shift of a 32-bit unsigned value as the compiled program
evaluates it: a count below the register width shifts and truncates to
32 bits, a count of 32 or more clears the register to 0. -/
def shl32 (x n : Nat) : Nat := if n < 32 then (x <<< n) % 2 ^ 32 else 0

/-- Baud-divisor constant m1 of uart_init:
`(UINT32_C(1) << 32U) / CONF_CPU_FREQUENCY` stored into a uint32_t —
a 32-bit shift by the full register width, so the dividend is 0. -/
def uart_m1 (clk : Nat) : Nat := (shl32 1 32 / clk) % 2 ^ 32

/-- Baud-divisor constant m2 of uart_init:
`((UINT32_C(1) << 42U) / CONF_CPU_FREQUENCY) & 0x3FF` — the 32-bit
shift by 42 yields 0. -/
def uart_m2 (clk : Nat) : Nat := (shl32 1 42 / clk) &&& 0x3FF

/-- Baud-divisor constant m3 of uart_init:
`((UINT32_C(1) << 52U) / CONF_CPU_FREQUENCY) & 0x3FF` — the 32-bit
shift by 52 yields 0. -/
def uart_m3 (clk : Nat) : Nat := (shl32 1 52 / clk) &&& 0x3FF

/-- Baud-divisor constant m4 of uart_init:
`((UINT32_C(1) << 62U) / CONF_CPU_FREQUENCY) & 0x3FF` — the 32-bit
shift by 62 yields 0. -/
def uart_m4 (clk : Nat) : Nat := (shl32 1 62 / clk) &&& 0x3FF

/-- First fold step of uart_init's baud computation:
`op4 = (baudrate * m4 - 1U) >> 10U`, in 32-bit wrap-around arithmetic
(the product is reduced modulo 2^32 and the subtraction of 1 wraps). -/
def uart_op4 (baudrate clk : Nat) : Nat :=
  (((baudrate * uart_m4 clk) % 2 ^ 32 + (2 ^ 32 - 1)) % 2 ^ 32) >>> 10

/-- Second fold step of uart_init's baud computation:
`op3 = (baudrate * m3 + op4) >> 10U` in 32-bit arithmetic. -/
def uart_op3 (baudrate clk : Nat) : Nat :=
  ((baudrate * uart_m3 clk + uart_op4 baudrate clk) % 2 ^ 32) >>> 10

/-- Third fold step of uart_init's baud computation:
`op2 = (baudrate * m2 + op3) >> 10U` in 32-bit arithmetic. -/
def uart_op2 (baudrate clk : Nat) : Nat :=
  ((baudrate * uart_m2 clk + uart_op3 baudrate clk) % 2 ^ 32) >>> 10

/-- Last fold step of uart_init's baud computation:
`op1 = (baudrate * m1 + op2) >> 12U` in 32-bit arithmetic. -/
def uart_op1 (baudrate clk : Nat) : Nat :=
  ((baudrate * uart_m1 clk + uart_op2 baudrate clk) % 2 ^ 32) >>> 12

/-- The uint32 value `baud = 65535U - op1` computed by uart_init
(the subtraction wraps modulo 2^32, as in C). -/
def uart_baud (baudrate clk : Nat) : Nat :=
  (65535 + (2 ^ 32 - uart_op1 baudrate clk)) % 2 ^ 32

/-- Pin-function assignment of a pin in the pin-mux table.  The concrete
mux values come from Atmel headers outside this repository; the spec only
distinguishes the peripheral-signal-pad roles from the unconfigured
general-purpose role, which is what we model. -/
inductive PinFunc where
  | functionOff
  | sercom1Pad0
  | sercom1Pad1
  deriving DecidableEq

/-- Operating mode field of CTRLA as far as the driver uses it. -/
inductive SercomUsartMode where
  | disabled
  | usartIntClk
  deriving DecidableEq

/-- The CTRLA register of the SERCOM USART, at named-field granularity.
A full-register write assigns every field at once. -/
structure SercomCtrla where
  swrst : Bool
  enable : Bool
  mode : SercomUsartMode
  runstdby : Bool
  sampr : Nat
  txpo : Nat
  rxpo : Nat
  dord : Bool
  deriving DecidableEq

/-- The SERCOM USART register fields the driver reads or writes. -/
structure SercomUsart where
  ctrla : SercomCtrla
  ctrlb_chsize : Nat
  ctrlb_txen : Bool
  ctrlb_rxen : Bool
  baud : Nat
  intenset_rxc : Bool
  intflag_rxc : Bool
  intflag_dre : Bool
  data : Nat
  syncbusy_enable : Bool
  syncbusy_swrst : Bool
  syncbusy_ctrlb : Bool
  deriving DecidableEq

/-- Complete simulated state: the SERCOM block, the two pin-mux entries,
the driver's uart_active flag, the NVIC enable for SERCOM1 and the two
clock gates the driver requests. -/
structure UartState where
  sercom : SercomUsart
  pinPA00 : PinFunc
  pinPA01 : PinFunc
  uart_active : Bool
  nvic_sercom1 : Bool
  apbc_sercom1_clock : Bool
  gclk_sercom1_core : Bool
  deriving DecidableEq

/-- Static helper `_uart_configure_pinmux(bool use_for_uart)`: routes
PA00/PA01 to the SERCOM pads, or back to the unconfigured function. -/
def _uart_configure_pinmux (use_for_uart : Bool) (s : UartState) : UartState :=
  if use_for_uart then
    { s with pinPA00 := PinFunc.sercom1Pad0, pinPA01 := PinFunc.sercom1Pad1 }
  else
    { s with pinPA00 := PinFunc.functionOff, pinPA01 := PinFunc.functionOff }

/-- `uart_configure_pinmux()`: attach the pins for UART use and set
uart_active. -/
def uart_configure_pinmux (s : UartState) : UartState :=
  { _uart_configure_pinmux true s with uart_active := true }

/-- `uart_release_pinmux()`: return the pins to GPIO use and clear
uart_active. -/
def uart_release_pinmux (s : UartState) : UartState :=
  { _uart_configure_pinmux false s with uart_active := false }

/-- One primitive action of uart_init, in program order.  Poll steps are
the busy-wait loops (reads of SYNCBUSY only); the remaining steps are the
writes and collaborator calls the function performs. -/
inductive Step where
  | pollSyncEnable
  | pollSyncSwrst
  | pollSyncSwrstOrEnable
  | pollSyncCtrlb
  | writeCtrlaEnableBit (value : Bool)
  | writeCtrlaSwrstBit
  | configurePinmux
  | enableApbcBusClock
  | enableGclkChannelCore
  | writeCtrlaReg
  | writeBaudReg (value : Nat)
  | writeCtrlbReg
  | writeIntensetRxc
  | nvicEnableIrqSercom1
  deriving DecidableEq

/-- Effect of one uart_init step on the simulated state.  Poll steps only
read SYNCBUSY, so on a model whose polled flags eventually clear they are
the identity.  `writeCtrlaReg` is the full-register CTRLA write of
uart_init (DORD, TXPO(0), RXPO(1), SAMPR(0), RUNSTDBY, internal-clock
USART mode); being a whole-register write it also clears ENABLE and SWRST.
`writeBaudReg` stores into the 16-bit BAUD register.  `writeCtrlbReg` is
the full CTRLB write (CHSIZE(0), TXEN, RXEN).  `writeIntensetRxc` is the
write-one-to-set of the RXC interrupt-enable bit. -/
def stepRun (s : UartState) : Step → UartState
  | Step.pollSyncEnable => s
  | Step.pollSyncSwrst => s
  | Step.pollSyncSwrstOrEnable => s
  | Step.pollSyncCtrlb => s
  | Step.writeCtrlaEnableBit v =>
      { s with sercom := { s.sercom with ctrla := { s.sercom.ctrla with enable := v } } }
  | Step.writeCtrlaSwrstBit =>
      { s with sercom := { s.sercom with ctrla := { s.sercom.ctrla with swrst := true } } }
  | Step.configurePinmux => uart_configure_pinmux s
  | Step.enableApbcBusClock => { s with apbc_sercom1_clock := true }
  | Step.enableGclkChannelCore => { s with gclk_sercom1_core := true }
  | Step.writeCtrlaReg =>
      { s with sercom := { s.sercom with ctrla :=
          { swrst := false, enable := false, mode := SercomUsartMode.usartIntClk,
            runstdby := true, sampr := 0, txpo := 0, rxpo := 1, dord := true } } }
  | Step.writeBaudReg v => { s with sercom := { s.sercom with baud := v % 2 ^ 16 } }
  | Step.writeCtrlbReg =>
      { s with sercom := { s.sercom with
          ctrlb_chsize := 0, ctrlb_txen := true, ctrlb_rxen := true } }
  | Step.writeIntensetRxc => { s with sercom := { s.sercom with intenset_rxc := true } }
  | Step.nvicEnableIrqSercom1 => { s with nvic_sercom1 := true }

/-- The exact sequence of actions performed by
`uart_init(bool configure_pinmux, unsigned long baudrate)`, in program
order, read off the body of the C function line by line. -/
def uart_init_steps (configure_pinmux : Bool) (baudrate clk : Nat) : List Step :=
  [Step.pollSyncEnable, Step.writeCtrlaEnableBit false,
   Step.pollSyncSwrst, Step.writeCtrlaSwrstBit,
   Step.pollSyncSwrst, Step.pollSyncSwrstOrEnable]
  ++ (if configure_pinmux then [Step.configurePinmux] else [])
  ++ [Step.enableApbcBusClock, Step.enableGclkChannelCore,
      Step.writeCtrlaReg, Step.writeBaudReg (uart_baud baudrate clk),
      Step.writeCtrlbReg, Step.pollSyncCtrlb,
      Step.writeIntensetRxc, Step.nvicEnableIrqSercom1,
      Step.writeCtrlaEnableBit true, Step.pollSyncEnable]

/-- `uart_init`, as the effect of running its steps in order on the
simulated register model (every polled SYNCBUSY flag eventually clears,
so the polls contribute no state change). -/
def uart_init (configure_pinmux : Bool) (baudrate clk : Nat) (s : UartState) : UartState :=
  (uart_init_steps configure_pinmux baudrate clk).foldl stepRun s

/-- Observable hardware events of one interrupt-handler invocation: a read
of the 16-bit DATA register (returning its value), and an invocation of
the registered `uart_byte_received_cb` with its uint8_t argument. -/
inductive HwEvent where
  | readData (value : Nat)
  | callbackByteReceived (byte : Nat)
  deriving DecidableEq

/-- `SERCOM1_Handler()`: if INTFLAG.RXC is set, read DATA once (on the
hardware this read clears the RXC interrupt condition — that is the
acknowledgment, so the model clears `intflag_rxc` as the read's side
effect) and pass the value to `uart_byte_received_cb`, whose uint8_t
parameter keeps the low 8 bits.  Otherwise do nothing.  The returned
list records, in order, the data-register reads and callback invocations
performed. -/
def SERCOM1_Handler (s : UartState) : UartState × List HwEvent :=
  if s.sercom.intflag_rxc then
    ({ s with sercom := { s.sercom with intflag_rxc := false } },
     [HwEvent.readData s.sercom.data,
      HwEvent.callbackByteReceived (s.sercom.data % 2 ^ 8)])
  else
    (s, [])

/-- `uart_ready_for_write()`: true iff INTFLAG.DRE is set. -/
def uart_ready_for_write (s : UartState) : Bool := s.sercom.intflag_dre

/-- `uart_nonblocking_write(uint8_t byte)`: write the byte to the DATA
register unconditionally (the uint8_t parameter truncates the argument to
its low 8 bits). -/
def uart_nonblocking_write (byte : Nat) (s : UartState) : UartState :=
  { s with sercom := { s.sercom with data := byte % 2 ^ 8 } }

/-- Reset value of the modelled SERCOM registers (all interrupt enables
and flags clear apart from DRE, which the hardware sets while the data
register is empty). -/
def resetSercom : SercomUsart :=
  { ctrla := { swrst := false, enable := false, mode := SercomUsartMode.disabled,
               runstdby := false, sampr := 0, txpo := 0, rxpo := 0, dord := false },
    ctrlb_chsize := 0, ctrlb_txen := false, ctrlb_rxen := false,
    baud := 0, intenset_rxc := false, intflag_rxc := false, intflag_dre := true,
    data := 0, syncbusy_enable := false, syncbusy_swrst := false, syncbusy_ctrlb := false }

/-- Startup state: reset registers, both pins unconfigured, uart_active
false (its C initializer), NVIC line and clock gates off. -/
def startupState : UartState :=
  { sercom := resetSercom, pinPA00 := PinFunc.functionOff, pinPA01 := PinFunc.functionOff,
    uart_active := false, nvic_sercom1 := false, apbc_sercom1_clock := false,
    gclk_sercom1_core := false }

/-- A receive-ready state: startup state with INTFLAG.RXC set and the
value 0x41 in the data register. -/
def rxReadyState : UartState :=
  { startupState with sercom := { startupState.sercom with intflag_rxc := true, data := 0x41 } }

/-- A state with a pending transmission: the data register holds 0x55 and
INTFLAG.DRE is clear (the byte has not yet been taken by the shifter). -/
def pendingTxState : UartState :=
  { startupState with sercom := { startupState.sercom with intflag_dre := false, data := 0x55 } }

/-- Events of the uart_init trace that claim C4 is about: the unmasking of
the receive-complete interrupt at the peripheral, the enabling of the
SERCOM1 line at the interrupt controller, and the setting (not clearing)
of the peripheral enable bit. -/
def armingEvent : Step → Bool
  | Step.writeIntensetRxc => true
  | Step.nvicEnableIrqSercom1 => true
  | Step.writeCtrlaEnableBit true => true
  | _ => false

/-- C1 (code bug): at baud rate 115200 and clock 48 MHz the program
computes 65535 for the baud register — the UINT32_C(1) constant shifts
by 32..62 fold to 0, so op1 is 0 for every baud rate — while the
claim's reference value 65535 − floor(65536 · 16 · 115200 / 48000000)
is 63019.  This contradicts the source's own comment, which asserts the
computation is exact for every CONF_CPU_FREQUENCY up to 48 MHz. -/
theorem uart_baud_bug_at_failing_input :
    uart_baud 115200 48000000 = 65535 ∧
    65535 - 65536 * 16 * 115200 / 48000000 = 63019 ∧
    (65535 : Nat) ≠ 63019 :=
  ⟨by decide, by decide, by decide⟩

/-- C2 (code bug): the four precomputed constants of the program all
evaluate to 0 at clock 48 MHz, because a 32-bit UINT32_C(1) shifted by
32, 42, 52 or 62 clears the register; the constants the claim (and the
source's own comment on the method) intends — 2^32 / clk and 2^42,
2^52, 2^62 divided by clk masked to their low 10 bits — would be 89,
489, 992 and 242.  With the zero constants the four fold steps
degenerate to 4194303, 4095, 3 and 0 at baud 115200, and the register
value is 65535 regardless of the baud rate. -/
theorem uart_constants_fold_to_zero :
    uart_m1 48000000 = 0 ∧ uart_m2 48000000 = 0 ∧
    uart_m3 48000000 = 0 ∧ uart_m4 48000000 = 0 ∧
    2 ^ 32 / 48000000 = 89 ∧ (2 ^ 42 / 48000000) &&& 0x3FF = 489 ∧
    (2 ^ 52 / 48000000) &&& 0x3FF = 992 ∧ (2 ^ 62 / 48000000) &&& 0x3FF = 242 ∧
    uart_op4 115200 48000000 = 4194303 ∧ uart_op3 115200 48000000 = 4095 ∧
    uart_op2 115200 48000000 = 3 ∧ uart_op1 115200 48000000 = 0 ∧
    uart_baud 115200 48000000 = 65535 := by
  decide

/-- C3: one simulated receive-complete condition with any 16-bit data
value makes SERCOM1_Handler read the data register exactly once, invoke
the byte-received callback exactly once with the low 8 bits of that
value, and not invoke it again until another receive-complete condition
occurs (a second invocation produces no read and no callback). -/
theorem handler_dispatches_once (v : Nat) (s : UartState)
    (hv : v < 2 ^ 16) (hrxc : s.sercom.intflag_rxc = true)
    (hdata : s.sercom.data = v) :
    (SERCOM1_Handler s).2 =
      [HwEvent.readData v, HwEvent.callbackByteReceived (v % 2 ^ 8)] ∧
    (SERCOM1_Handler (SERCOM1_Handler s).1).2 = [] := by
  constructor
  · simp [SERCOM1_Handler, hrxc, hdata]
  · simp [SERCOM1_Handler, hrxc]

/-- Witness for C3 with data value 0x41. -/
theorem handler_dispatches_once_witness :
    (0x41 : Nat) < 2 ^ 16 ∧ rxReadyState.sercom.intflag_rxc = true ∧
    rxReadyState.sercom.data = 0x41 ∧
    ((SERCOM1_Handler rxReadyState).2 =
      [HwEvent.readData 0x41, HwEvent.callbackByteReceived (0x41 % 2 ^ 8)] ∧
     (SERCOM1_Handler (SERCOM1_Handler rxReadyState).1).2 = []) :=
  ⟨by decide, rfl, rfl,
   handler_dispatches_once 0x41 rxReadyState (by decide) rfl rfl⟩

/-- C4: in every execution of uart_init, filtering its action trace to
the receive-interrupt unmask, the interrupt-controller enable and the
setting of the peripheral enable bit leaves exactly those three events in
exactly that order — the RXC interrupt is unmasked at the peripheral
first, the NVIC line is enabled second, and the enable bit is set last
(each exactly once), so no received byte can be dispatched to the
callback before the peripheral is fully enabled. -/
theorem init_arming_order (configure_pinmux : Bool) (baudrate clk : Nat) :
    (uart_init_steps configure_pinmux baudrate clk).filter armingEvent =
      [Step.writeIntensetRxc, Step.nvicEnableIrqSercom1,
       Step.writeCtrlaEnableBit true] := by
  cases configure_pinmux <;> rfl

/-- C5 (code bug): after uart_init(true, 115200) completes on the
simulated register model from the startup state at the 48 MHz reference
clock, the peripheral enable bit is set and the receive-complete
interrupt is unmasked as the claim says, but the baud register holds
65535 — the degenerate value produced by the zero constant shifts — and
not the reference value 65535 − floor(65536 · 16 · 115200 / 48000000)
= 63019 that the claim (and the source's own comment) requires. -/
theorem uart_init_postcondition_bug :
    (uart_init true 115200 48000000 startupState).sercom.ctrla.enable = true ∧
    (uart_init true 115200 48000000 startupState).sercom.intenset_rxc = true ∧
    (uart_init true 115200 48000000 startupState).sercom.baud = 65535 ∧
    65535 - 65536 * 16 * 115200 / 48000000 = 63019 ∧ (65535 : Nat) ≠ 63019 :=
  ⟨rfl, rfl, by decide, by decide, by decide⟩

/-- C6 counterexample: with a pending transmission (data register holds
0x55, DRE clear so uart_ready_for_write is false), uart_nonblocking_write
0xAA overwrites the pending byte — the in-flight transmission state IS
overwritten by the call, contradicting the claim. -/
theorem nonblocking_write_overwrites_pending :
    uart_ready_for_write pendingTxState = false ∧
    pendingTxState.sercom.data = 0x55 ∧
    (uart_nonblocking_write 0xAA pendingTxState).sercom.data = 0xAA :=
  ⟨rfl, rfl, rfl⟩

/-- C6 as amended: uart_nonblocking_write writes the data register
unconditionally; called while uart_ready_for_write() is false it replaces
the pending transmit byte with the new byte (and changes nothing else),
so avoiding corruption is the caller's responsibility. -/
theorem nonblocking_write_always_writes_data (byte : Nat) (s : UartState)
    (h : uart_ready_for_write s = false) :
    uart_nonblocking_write byte s =
      { s with sercom := { s.sercom with data := byte % 2 ^ 8 } } := rfl

/-- Witness for the amended C6 at byte 0xAA in the pending-transmission
state. -/
theorem nonblocking_write_always_writes_data_witness :
    uart_ready_for_write pendingTxState = false ∧
    uart_nonblocking_write 0xAA pendingTxState =
      { pendingTxState with sercom :=
          { pendingTxState.sercom with data := 0xAA % 2 ^ 8 } } :=
  ⟨rfl, nonblocking_write_always_writes_data 0xAA pendingTxState rfl⟩

/-- C7: the uart_active flag is mutated only by the pin-mux operations —
uart_configure_pinmux sets it, uart_release_pinmux clears it, uart_init
changes it only via uart_configure_pinmux when its pin-configuration
argument is true (with false it is untouched, for every baud rate and
clock), the write path leaves it alone, the interrupt handler leaves it
alone, and the enable/disable register transitions leave it alone. -/
theorem uart_active_only_from_pinmux (baudrate clk byte : Nat)
    (s : UartState) (en : Bool) :
    (uart_init false baudrate clk s).uart_active = s.uart_active ∧
    (uart_init true baudrate clk s).uart_active = true ∧
    (uart_configure_pinmux s).uart_active = true ∧
    (uart_release_pinmux s).uart_active = false ∧
    (uart_nonblocking_write byte s).uart_active = s.uart_active ∧
    ((SERCOM1_Handler s).1).uart_active = s.uart_active ∧
    (stepRun s (Step.writeCtrlaEnableBit en)).uart_active = s.uart_active :=
  ⟨rfl, rfl, rfl, rfl, rfl,
   by cases h : s.sercom.intflag_rxc <;> simp [SERCOM1_Handler, h], rfl⟩

/-- C8: releasing the pin-mux twice from any state leaves uart_active
false and produces exactly the same state (pin roles included) as
releasing it once. -/
theorem release_pinmux_idempotent (s : UartState) :
    uart_release_pinmux (uart_release_pinmux s) = uart_release_pinmux s ∧
    (uart_release_pinmux (uart_release_pinmux s)).uart_active = false :=
  ⟨rfl, rfl⟩

/-- C9: from any state, uart_configure_pinmux followed by
uart_release_pinmux returns both pins to the unconfigured general-purpose
role and leaves uart_active false. -/
theorem configure_then_release_roundtrip (s : UartState) :
    (uart_release_pinmux (uart_configure_pinmux s)).pinPA00 = PinFunc.functionOff ∧
    (uart_release_pinmux (uart_configure_pinmux s)).pinPA01 = PinFunc.functionOff ∧
    (uart_release_pinmux (uart_configure_pinmux s)).uart_active = false :=
  ⟨rfl, rfl, rfl⟩

/-- C10: a spurious invocation of SERCOM1_Handler (receive-complete flag
clear) performs no data-register read, invokes no callback, and leaves
the entire state unchanged. -/
theorem handler_spurious_noop (s : UartState)
    (h : s.sercom.intflag_rxc = false) :
    SERCOM1_Handler s = (s, []) := by
  simp [SERCOM1_Handler, h]

/-- Witness for C10 at the startup state. -/
theorem handler_spurious_noop_witness :
    startupState.sercom.intflag_rxc = false ∧
    SERCOM1_Handler startupState = (startupState, []) :=
  ⟨rfl, handler_spurious_noop startupState rfl⟩
